import Mathlib

/-!
The SFTP to SMB transfer job of go-sftp-smb (`main.go`), as a shallow embedding.

The program is a straight sequence of calls into three external client libraries (`ssh`,
`sftp`, `smb2`) with inline error checks.  The embedding keeps the program text and makes
the outside world explicit:

* every library call is answered by an `Env` (the return values of the call);
* every library call the program issues is appended to a trace of `Event`s, together
  with the error it returned;
* `log.Fatal` (which ends the process at once, without running deferred calls), a nil
  dereference in `err.Error()` and normal return are the three ways a run ends;
* `defer` registers a call that runs when `main` returns or panics, last registered first;
* the stream copy of the library (`WriteTo`) is modelled from the spec as `copyStream`.

Two spellings of the source are read as the calls they stand for: `conn.close()` and
`client.close()` are the deferred close of the SSH and SFTP handles, and
`wd.Remove(file.Name())` is the remove call for the entry name.
-/

namespace SftpSmb

/-! ## Data model -/

/-- A Go `error` value: `none` is `nil`, `some s` is an error whose `Error()` text is `s`. -/
abbrev GoError := Option String

/-- One byte of file content. -/
abbrev Byte := Fin 256

/-- The part of `os.FileInfo` the program looks at: `Name()` and `IsDir()`. -/
structure FileInfo where
  name : String
  isDir : Bool
deriving DecidableEq, Repr

/-- The `ssh.ClientConfig` built in `sshConn`. -/
structure ClientConfig where
  user : String
  auth : List String
  insecureIgnoreHostKey : Bool
deriving DecidableEq, Repr

/-- The `smb2.Dialer` built in `smbConn`: an `NTLMInitiator` with user, password, domain. -/
structure Dialer where
  user : String
  password : String
  domain : String
deriving DecidableEq, Repr

/-- Handle `*ssh.Client`. -/
structure SshClient where
  id : Nat
deriving DecidableEq, Repr

/-- Handle `*sftp.Client`. -/
structure SftpClient where
  id : Nat
deriving DecidableEq, Repr

/-- Handle `net.Conn`. -/
structure Conn where
  id : Nat
deriving DecidableEq, Repr

/-- Handle `*smb2.Session`. -/
structure Session where
  id : Nat
deriving DecidableEq, Repr

/-- Handle `*smb2.Share` (the mounted share). -/
structure Share where
  id : Nat
deriving DecidableEq, Repr

/-- Handle `*sftp.File`, the source handle returned by `client.Open`: the path it was opened
at and the byte stream the remote file delivers when it is read. -/
structure SftpFile where
  path : String
  content : List Byte
deriving DecidableEq, Repr

/-- Handle `*smb2.File`, the destination handle returned by `fs.Create`. -/
structure SmbFile where
  name : String
  id : Nat
deriving DecidableEq, Repr

/-- The outside world: environment variables and the return values of every library call.
The four calls of the transfer loop also receive the position, in the listing, of the entry
they are issued for, so that the answer to a call may differ from one entry to the next even
when the arguments are equal.  For the copy the world decides whether and where it fails:
`writeFault` is `none` when nothing fails, and `some (k, msg)` when the copy fails with
the error `msg` after `k` bytes. -/
structure Env where
  getenv : String → String
  sshDial : String → String → ClientConfig → SshClient × GoError
  sftpNewClient : SshClient → SftpClient × GoError
  getwd : SftpClient → String × GoError
  readDir : SftpClient → String → List FileInfo × GoError
  netDial : String → String → Conn × GoError
  smbDial : Dialer → Conn → Session × GoError
  mount : Session → String → Share × GoError
  sftpOpen : Nat → SftpClient → String → SftpFile × GoError
  create : Nat → Share → String → SmbFile × GoError
  writeFault : Nat → SftpFile → SmbFile → Option (Nat × String)
  remove : Nat → String → String → GoError

/-- A deferred call registered with `defer`. -/
inductive Deferred where
  | sshClose (conn : SshClient)
  | sftpClose (client : SftpClient)
  | connClose (conn : Conn)
  | logoff (session : Session)
  | dstClose (i : Nat) (dst : SmbFile)
deriving DecidableEq, Repr

/-- A call issued by the program, with the error it returned and, for `ReadDir`, `Open` and
`Create`, the value it returned.  For the calls of the transfer loop, `i` is the position
in the listing of the entry the call is issued for. -/
inductive Event where
  | sshDial (network addr : String) (config : ClientConfig) (err : GoError)
  | sftpNewClient (conn : SshClient) (err : GoError)
  | getwd (client : SftpClient) (err : GoError)
  | println (line : String)
  | readDir (client : SftpClient) (dir : String) (files : List FileInfo) (err : GoError)
  | netDial (network addr : String) (err : GoError)
  | smbDial (d : Dialer) (conn : Conn) (err : GoError)
  | mount (session : Session) (name : String) (err : GoError)
  | sftpOpen (i : Nat) (path : String) (data : SftpFile) (err : GoError)
  | create (i : Nat) (name : String) (dst : SmbFile) (err : GoError)
  | writeTo (i : Nat) (src : SftpFile) (dst : SmbFile) (written : List Byte) (err : GoError)
  | remove (i : Nat) (name : String) (err : GoError)
  | run (d : Deferred)
deriving DecidableEq, Repr

/-- Why a run stops before the end of `main`. -/
inductive Abort where
  | fatal (msg : String)
  | panic (msg : String)
deriving DecidableEq, Repr

/-- Either a value, or the reason the run stopped. -/
inductive Step (α : Type) where
  | ok (a : α)
  | stop (why : Abort)

/-- A piece of the program: the calls it issued (oldest first), the deferred calls it
registered (oldest first), and its value. -/
structure Run (α : Type) where
  trace : List Event
  deferred : List Deferred
  result : Step α

/-- Sequencing: the second piece runs only when the first did not stop. -/
def Run.bind {α β : Type} (m : Run α) (f : α → Run β) : Run β :=
  match m.result with
  | .stop why => ⟨m.trace, m.deferred, .stop why⟩
  | .ok a => ⟨m.trace ++ (f a).trace, m.deferred ++ (f a).deferred, (f a).result⟩

instance : Monad Run where
  pure a := ⟨[], [], .ok a⟩
  bind := Run.bind

/-- Record a call in the trace. -/
def emit (e : Event) : Run Unit := ⟨[e], [], .ok ()⟩

/-- Statement `defer d`. -/
def defer (d : Deferred) : Run Unit := ⟨[], [d], .ok ()⟩

/-- Stop the run. -/
def abort {α : Type} (why : Abort) : Run α := ⟨[], [], .stop why⟩

/-- Method call `err.Error()`: a nil `err` is a nil dereference, which panics. -/
def errorText : GoError → Run String
  | some s => pure s
  | none => abort (.panic "runtime error: invalid memory address or nil pointer dereference")

/-- Call `log.Fatal(args...)`: the operands, all strings here, are formatted as by
`fmt.Sprint` (no space is added between string operands) and the process exits. -/
def logFatal {α : Type} (args : List String) : Run α :=
  abort (.fatal (String.join args))

/-! ## Library calls -/

def sshDial (env : Env) (network addr : String) (config : ClientConfig) :
    Run (SshClient × GoError) := do
  let r := env.sshDial network addr config
  emit (.sshDial network addr config r.2)
  return r

def sftpNewClient (env : Env) (conn : SshClient) : Run (SftpClient × GoError) := do
  let r := env.sftpNewClient conn
  emit (.sftpNewClient conn r.2)
  return r

def getwd (env : Env) (client : SftpClient) : Run (String × GoError) := do
  let r := env.getwd client
  emit (.getwd client r.2)
  return r

def readDir (env : Env) (client : SftpClient) (dir : String) :
    Run (List FileInfo × GoError) := do
  let r := env.readDir client dir
  emit (.readDir client dir r.1 r.2)
  return r

def netDial (env : Env) (network addr : String) : Run (Conn × GoError) := do
  let r := env.netDial network addr
  emit (.netDial network addr r.2)
  return r

def smbDial (env : Env) (d : Dialer) (conn : Conn) : Run (Session × GoError) := do
  let r := env.smbDial d conn
  emit (.smbDial d conn r.2)
  return r

def mount (env : Env) (session : Session) (name : String) : Run (Share × GoError) := do
  let r := env.mount session name
  emit (.mount session name r.2)
  return r

def sftpOpen (env : Env) (i : Nat) (client : SftpClient) (path : String) :
    Run (SftpFile × GoError) := do
  let r := env.sftpOpen i client path
  emit (.sftpOpen i path r.1 r.2)
  return r

def create (env : Env) (i : Nat) (fs : Share) (name : String) : Run (SmbFile × GoError) := do
  let r := env.create i fs name
  emit (.create i name r.1 r.2)
  return r

/-- Modelled from the spec: the stream copy done by the library method `WriteTo`, which is
not in the source.  It copies "the entire byte stream from source to destination", in order,
until the end of the stream or a failure in mid-stream; what reaches the destination is the
whole stream when nothing fails, and the first `k` bytes of it when the copy fails after
`k` bytes ("a short write or transfer error"), in which case the error is not nil. -/
def copyStream (content : List Byte) : Option (Nat × String) → List Byte × GoError
  | none => (content, none)
  | some (k, msg) => (content.take k, some msg)

/-- Call `data.WriteTo(dstFile)`: returns the byte count and the error. -/
def writeTo (env : Env) (i : Nat) (data : SftpFile) (dstFile : SmbFile) :
    Run (Nat × GoError) := do
  let r := copyStream data.content (env.writeFault i data dstFile)
  emit (.writeTo i data dstFile r.1 r.2)
  return (r.1.length, r.2)

/-- Call `wd.Remove(name)`, the remove call of the loop: it is issued on the working
directory `wd` with the entry name as its argument. -/
def remove (env : Env) (i : Nat) (wd name : String) : Run GoError := do
  let r := env.remove i wd name
  emit (.remove i name r)
  return r

/-- Call `fmt.Println(args...)`: operands separated by spaces, newline appended. -/
def println (args : List String) : Run Unit :=
  emit (.println (String.intercalate " " args ++ "\n"))

/-! ## The program -/

def sshConn (env : Env) (user pwd ftp_endpoint : String) : Run (SshClient × GoError) := do
  let config : ClientConfig := ⟨user, [pwd], true⟩
  let (conn, err) ← sshDial env "tcp" (ftp_endpoint ++ ":22") config
  if err ≠ none then
    logFatal ["Unable to connect to", ftp_endpoint, ". Error:", ← errorText err]
  return (conn, err)

def sftpConn (env : Env) (conn : SshClient) : Run (SftpClient × GoError) := do
  let (client, err) ← sftpNewClient env conn
  if err ≠ none then
    logFatal ["Unable to open SFTP connection. Error:", ← errorText err]
  return (client, err)

def tcpConn (env : Env) (smb_endpoint : String) : Run Conn := do
  let (conn, err) ← netDial env "tcp" (smb_endpoint ++ ":445")
  if err ≠ none then
    logFatal ["Unable to connect to SMB port. Error:", ← errorText err]
  return conn

def smbConn (env : Env) (conn : Conn) (user password domain : String) :
    Run (Session × GoError) := do
  let d : Dialer := ⟨user, password, domain⟩
  let (session, err) ← smbDial env d conn
  if err ≠ none then
    logFatal ["Unable to open SMB connection. Error:", ← errorText err]
  return (session, err)

/-- The body of `if !file.IsDir()` in the loop of `main`, for the entry at position `i`. -/
def transferEntry (env : Env) (client : SftpClient) (wd : String) (fs : Share)
    (i : Nat) (file : FileInfo) : Run Unit := do
  let (data, data_err) ← sftpOpen env i client (wd ++ "/" ++ file.name)
  if data_err ≠ none then
    logFatal ["Unable to read file. Error:", ← errorText data_err]
  let (dstFile, create_err) ← create env i fs (env.getenv "PATH" ++ file.name)
  if create_err ≠ none then
    logFatal ["Unable to create local file:", file.name, "Error:", ← errorText create_err]
  defer (.dstClose i dstFile)
  let _ ← writeTo env i data dstFile
  let delete_err ← remove env i wd file.name
  if delete_err ≠ none then
    logFatal ["Unable to delete file:", file.name, "Error:", ← errorText delete_err]

/-- The loop `for _, file := range files` of `main`; `i` is the position of the head of the
remaining entries. -/
def transferLoop (env : Env) (client : SftpClient) (wd : String) (fs : Share) :
    Nat → List FileInfo → Run Unit
  | _, [] => pure ()
  | i, file :: rest => do
    if !file.isDir then
      transferEntry env client wd fs i file
    transferLoop env client wd fs (i + 1) rest

/-- The statements of `main`. -/
def mainBody (env : Env) : Run Unit := do
  let (conn, _) ← sshConn env (env.getenv "SFTP_USERNAME") (env.getenv "SFTP_PASSWORD")
    (env.getenv "SFTP")
  defer (.sshClose conn)
  let (client, _) ← sftpConn env conn
  defer (.sftpClose client)
  let (wd, err) ← getwd env client
  if err ≠ none then
    logFatal ["User doesn't have permissions to get the current directory. Error:",
      ← errorText err]
  println ["SFTP folder:", wd]
  let (files, files_err) ← readDir env client wd
  if files_err ≠ none then
    logFatal ["User doesn't have permissions to list files in the current directory. Error:",
      ← errorText err]
  let tcpconn ← tcpConn env (env.getenv "SMB")
  defer (.connClose tcpconn)
  let (session, _) ← smbConn env tcpconn (env.getenv "SMB_USERNAME")
    (env.getenv "SMB_PASSWORD") (env.getenv "SMB_DOMAIN")
  defer (.logoff session)
  let (fs, fs_err) ← mount env session (env.getenv "MOUNT")
  if fs_err ≠ none then
    logFatal ["Unable to mount share. Error:", ← errorText fs_err]
  transferLoop env client wd fs 0 files

/-- How a run of the program ends. -/
inductive Outcome where
  | returned
  | fatal (msg : String)
  | panicked (msg : String)
deriving DecidableEq, Repr

/-- A complete run: all calls issued, in order, and how it ended. -/
structure Execution where
  trace : List Event
  outcome : Outcome
deriving DecidableEq, Repr

/-- The deferred calls, run last registered first. -/
def runDeferred (ds : List Deferred) : List Event :=
  ds.reverse.map Event.run

/-- Function `main`: the statements, then the deferred calls when `main` returns or
panics; `log.Fatal` exits the process without running them. -/
def main (env : Env) : Execution :=
  let r := mainBody env
  match r.result with
  | .ok _ => ⟨r.trace ++ runDeferred r.deferred, .returned⟩
  | .stop (.fatal msg) => ⟨r.trace, .fatal msg⟩
  | .stop (.panic msg) => ⟨r.trace ++ runDeferred r.deferred, .panicked msg⟩

/-! ## Observations on traces -/

/-- The four calls of the transfer loop. -/
inductive Op where
  | opened
  | created
  | copied
  | removed
deriving DecidableEq, Repr

/-- For a call of the transfer loop: which call it is and the position of its entry. -/
def Event.step : Event → Option (Op × Nat)
  | .sftpOpen i _ _ _ => some (.opened, i)
  | .create i _ _ _ => some (.created, i)
  | .writeTo i _ _ _ _ => some (.copied, i)
  | .remove i _ _ => some (.removed, i)
  | _ => none

/-- The error a call returned (`none` for calls that return no error). -/
def Event.err : Event → GoError
  | .sshDial _ _ _ err => err
  | .sftpNewClient _ err => err
  | .getwd _ err => err
  | .println _ => none
  | .readDir _ _ _ err => err
  | .netDial _ _ err => err
  | .smbDial _ _ err => err
  | .mount _ _ err => err
  | .sftpOpen _ _ _ err => err
  | .create _ _ _ err => err
  | .writeTo _ _ _ _ err => err
  | .remove _ _ err => err
  | .run _ => none

/-- The call returned a non-nil error. -/
def Event.failed (e : Event) : Bool := e.err.isSome

/-- A failed connection-setup step: SSH dial, SFTP session open, TCP dial, SMB session
negotiation or share mount. -/
def Event.setupFailure : Event → Bool
  | .sshDial _ _ _ err => err.isSome
  | .sftpNewClient _ err => err.isSome
  | .netDial _ _ err => err.isSome
  | .smbDial _ _ err => err.isSome
  | .mount _ _ err => err.isSome
  | _ => false

/-- The call is a `ReadDir`. -/
def Event.isReadDir : Event → Bool
  | .readDir _ _ _ _ => true
  | _ => false

/-- The name passed to a remove call. -/
def Event.removedName : Event → Option String
  | .remove _ name _ => some name
  | _ => none

/-- The effect of one call on the destination handles that are open, given by the positions
of their entries: a successful `Create` opens one, the deferred `Close` closes it. -/
def openDstStep (acc : List Nat) : Event → List Nat
  | .create i _ _ none => acc ++ [i]
  | .run (.dstClose i _) => acc.erase i
  | _ => acc

/-- The destination handles open after the calls of `t`, oldest first. -/
def openDstHandles (t : List Event) : List Nat :=
  t.foldl openDstStep []

/-- The position of the entry for which a `Create` succeeded. -/
def Event.createdAt : Event → Option Nat
  | .create i _ _ none => some i
  | _ => none

/-- The call is one of the seven calls made before the loop that return an error. -/
def Event.isSetup : Event → Bool
  | .sshDial _ _ _ _ => true
  | .sftpNewClient _ _ => true
  | .getwd _ _ => true
  | .readDir _ _ _ _ => true
  | .netDial _ _ _ => true
  | .smbDial _ _ _ => true
  | .mount _ _ _ => true
  | _ => false

/-- The call `e` is one the loop body issues for the entry `f` at position `k`: its
arguments are built from `f`, and what it records is what the world answered. -/
def IssuedFor (env : Env) (client : SftpClient) (wd : String) (fs : Share) (k : Nat)
    (f : FileInfo) : Event → Prop
  | .sftpOpen j p data _ =>
    j = k ∧ p = wd ++ "/" ++ f.name ∧ data = (env.sftpOpen k client p).1
  | .create j nm dst _ =>
    j = k ∧ nm = env.getenv "PATH" ++ f.name ∧ dst = (env.create k fs nm).1
  | .writeTo j src dst written err =>
    j = k ∧ src = (env.sftpOpen k client (wd ++ "/" ++ f.name)).1 ∧
      dst = (env.create k fs (env.getenv "PATH" ++ f.name)).1 ∧
      written = (copyStream src.content (env.writeFault k src dst)).1 ∧
      err = (copyStream src.content (env.writeFault k src dst)).2
  | .remove j nm _ => j = k ∧ nm = f.name
  | _ => False

/-- The four calls of a complete transfer of the entry at position `i`, in program order. -/
def fourSteps (i : Nat) : List (Op × Nat) :=
  [(.opened, i), (.created, i), (.copied, i), (.removed, i)]

/-- The entries of a listing that are not directories, with their positions counted from
`i`, in listing order. -/
def transferable (i : Nat) (D : List FileInfo) : List (Nat × FileInfo) :=
  (D.enumFrom i).filter (fun p => !p.2.isDir)

/-- The bytes a call wrote to the destination of the entry at position `i`. -/
def Event.writtenAt (i : Nat) : Event → Option (List Byte)
  | .writeTo j _ _ written _ => if j = i then some written else none
  | _ => none

/-- All the bytes written, in order, to the destination of the entry at position `i` by the
calls of `t`. -/
def writtenTo (t : List Event) (i : Nat) : List Byte :=
  (t.filterMap (Event.writtenAt i)).flatten

/-! ## Sample worlds -/

/-- A world in which every call succeeds: the listing is `files`, every source file holds
`content`, and `PATH` is `path`. -/
def okEnv (files : List FileInfo) (content : List Byte) (path : String) : Env where
  getenv v := if v = "PATH" then path else v
  sshDial _ _ _ := (⟨1⟩, none)
  sftpNewClient _ := (⟨2⟩, none)
  getwd _ := ("/home", none)
  readDir _ _ := (files, none)
  netDial _ _ := (⟨3⟩, none)
  smbDial _ _ := (⟨4⟩, none)
  mount _ _ := (⟨5⟩, none)
  sftpOpen _ _ p := (⟨p, content⟩, none)
  create i _ n := (⟨n, i⟩, none)
  writeFault _ _ _ := none
  remove _ _ _ := none

/-- A world as `okEnv`, except that the copy of the entry at position 0 stops after one
byte and returns an error. -/
def shortWriteEnv (files : List FileInfo) (content : List Byte) (path : String) : Env where
  getenv v := if v = "PATH" then path else v
  sshDial _ _ _ := (⟨1⟩, none)
  sftpNewClient _ := (⟨2⟩, none)
  getwd _ := ("/home", none)
  readDir _ _ := (files, none)
  netDial _ _ := (⟨3⟩, none)
  smbDial _ _ := (⟨4⟩, none)
  mount _ _ := (⟨5⟩, none)
  sftpOpen _ _ p := (⟨p, content⟩, none)
  create i _ n := (⟨n, i⟩, none)
  writeFault i _ _ := if i = 0 then some (1, "short write") else none
  remove _ _ _ := none

/-- A world in which `Getwd` succeeds and `ReadDir` fails. -/
def readDirFailsEnv : Env where
  getenv v := v
  sshDial _ _ _ := (⟨1⟩, none)
  sftpNewClient _ := (⟨2⟩, none)
  getwd _ := ("/home", none)
  readDir _ _ := ([], some "permission denied")
  netDial _ _ := (⟨3⟩, none)
  smbDial _ _ := (⟨4⟩, none)
  mount _ _ := (⟨5⟩, none)
  sftpOpen _ _ p := (⟨p, []⟩, none)
  create i _ n := (⟨n, i⟩, none)
  writeFault _ _ _ := none
  remove _ _ _ := none

/-- A world in which the SMB session negotiation fails. -/
def smbFailsEnv : Env where
  getenv v := v
  sshDial _ _ _ := (⟨1⟩, none)
  sftpNewClient _ := (⟨2⟩, none)
  getwd _ := ("/home", none)
  readDir _ _ := ([⟨"a", false⟩], none)
  netDial _ _ := (⟨3⟩, none)
  smbDial _ _ := (⟨0⟩, some "logon failure")
  mount _ _ := (⟨5⟩, none)
  sftpOpen _ _ p := (⟨p, []⟩, none)
  create i _ n := (⟨n, i⟩, none)
  writeFault _ _ _ := none
  remove _ _ _ := none

/-! ## The sequencing of runs -/

@[simp] theorem bind_eq {α β : Type} (m : Run α) (f : α → Run β) : m >>= f = Run.bind m f := rfl

@[simp] theorem pure_eq {α : Type} (a : α) : (pure a : Run α) = ⟨[], [], .ok a⟩ := rfl

@[simp] theorem bind_ok {α β : Type} (t : List Event) (d : List Deferred) (a : α)
    (f : α → Run β) :
    Run.bind ⟨t, d, .ok a⟩ f = ⟨t ++ (f a).trace, d ++ (f a).deferred, (f a).result⟩ := rfl

@[simp] theorem bind_stop {α β : Type} (t : List Event) (d : List Deferred) (why : Abort)
    (f : α → Run β) :
    Run.bind (⟨t, d, .stop why⟩ : Run α) f = ⟨t, d, .stop why⟩ := rfl

/-! ## One entry of the loop -/

/-- The entry body when `Open` fails. -/
theorem transferEntry_open_fails (env : Env) (client : SftpClient) (wd : String) (fs : Share)
    (i : Nat) (file : FileInfo) (data : SftpFile) (e : String)
    (ho : env.sftpOpen i client (wd ++ "/" ++ file.name) = (data, some e)) :
    transferEntry env client wd fs i file =
      ⟨[.sftpOpen i (wd ++ "/" ++ file.name) data (some e)], [],
        .stop (.fatal (String.join ["Unable to read file. Error:", e]))⟩ := by
  simp [transferEntry, sftpOpen, emit, ho, logFatal, abort, errorText]

/-- The entry body when `Open` succeeds and `Create` fails. -/
theorem transferEntry_create_fails (env : Env) (client : SftpClient) (wd : String) (fs : Share)
    (i : Nat) (file : FileInfo) (data : SftpFile) (dst : SmbFile) (e : String)
    (ho : env.sftpOpen i client (wd ++ "/" ++ file.name) = (data, none))
    (hc : env.create i fs (env.getenv "PATH" ++ file.name) = (dst, some e)) :
    transferEntry env client wd fs i file =
      ⟨[.sftpOpen i (wd ++ "/" ++ file.name) data none,
        .create i (env.getenv "PATH" ++ file.name) dst (some e)], [],
        .stop (.fatal (String.join ["Unable to create local file:", file.name, "Error:", e]))⟩ := by
  simp [transferEntry, sftpOpen, create, emit, ho, hc, logFatal, abort, errorText]

/-- The entry body when `Open` and `Create` succeed: the copy and the remove are both
issued, whatever the copy returns; the run goes on exactly when the remove succeeds. -/
theorem transferEntry_created (env : Env) (client : SftpClient) (wd : String) (fs : Share)
    (i : Nat) (file : FileInfo) (data : SftpFile) (dst : SmbFile)
    (ho : env.sftpOpen i client (wd ++ "/" ++ file.name) = (data, none))
    (hc : env.create i fs (env.getenv "PATH" ++ file.name) = (dst, none)) :
    transferEntry env client wd fs i file =
      ⟨[.sftpOpen i (wd ++ "/" ++ file.name) data none,
        .create i (env.getenv "PATH" ++ file.name) dst none,
        .writeTo i data dst (copyStream data.content (env.writeFault i data dst)).1
          (copyStream data.content (env.writeFault i data dst)).2,
        .remove i file.name (env.remove i wd file.name)],
        [.dstClose i dst],
        match env.remove i wd file.name with
        | none => .ok ()
        | some e =>
          .stop (.fatal (String.join ["Unable to delete file:", file.name, "Error:", e]))⟩ := by
  cases hr : env.remove i wd file.name <;>
    simp [transferEntry, sftpOpen, create, writeTo, remove, defer, emit, ho, hc, hr, logFatal,
      abort, errorText]

/-- The three ways the entry body can go. -/
theorem transferEntry_cases (env : Env) (client : SftpClient) (wd : String) (fs : Share)
    (i : Nat) (file : FileInfo) :
    (∃ data e, transferEntry env client wd fs i file =
      ⟨[.sftpOpen i (wd ++ "/" ++ file.name) data (some e)], [],
        .stop (.fatal (String.join ["Unable to read file. Error:", e]))⟩ ∧
      data = (env.sftpOpen i client (wd ++ "/" ++ file.name)).1) ∨
    (∃ data dst e, transferEntry env client wd fs i file =
      ⟨[.sftpOpen i (wd ++ "/" ++ file.name) data none,
        .create i (env.getenv "PATH" ++ file.name) dst (some e)], [],
        .stop (.fatal (String.join ["Unable to create local file:", file.name, "Error:", e]))⟩ ∧
      data = (env.sftpOpen i client (wd ++ "/" ++ file.name)).1 ∧
      dst = (env.create i fs (env.getenv "PATH" ++ file.name)).1) ∨
    (∃ data dst, transferEntry env client wd fs i file =
      ⟨[.sftpOpen i (wd ++ "/" ++ file.name) data none,
        .create i (env.getenv "PATH" ++ file.name) dst none,
        .writeTo i data dst (copyStream data.content (env.writeFault i data dst)).1
          (copyStream data.content (env.writeFault i data dst)).2,
        .remove i file.name (env.remove i wd file.name)],
        [.dstClose i dst],
        match env.remove i wd file.name with
        | none => .ok ()
        | some e =>
          .stop (.fatal (String.join ["Unable to delete file:", file.name, "Error:", e]))⟩ ∧
      data = (env.sftpOpen i client (wd ++ "/" ++ file.name)).1 ∧
      dst = (env.create i fs (env.getenv "PATH" ++ file.name)).1) := by
  rcases ho : env.sftpOpen i client (wd ++ "/" ++ file.name) with ⟨data, _ | e⟩
  · rcases hc : env.create i fs (env.getenv "PATH" ++ file.name) with ⟨dst, _ | e⟩
    · exact Or.inr (Or.inr ⟨data, dst, transferEntry_created env client wd fs i file data dst ho hc,
        rfl, rfl⟩)
    · exact Or.inr (Or.inl ⟨data, dst, e,
        transferEntry_create_fails env client wd fs i file data dst e ho hc, rfl, rfl⟩)
  · exact Or.inl ⟨data, e, transferEntry_open_fails env client wd fs i file data e ho, rfl⟩

/-! ## The loop -/

theorem transferLoop_nil (env : Env) (client : SftpClient) (wd : String) (fs : Share) (i : Nat) :
    transferLoop env client wd fs i [] = ⟨[], [], .ok ()⟩ := rfl

theorem transferLoop_dir (env : Env) (client : SftpClient) (wd : String) (fs : Share) (i : Nat)
    (file : FileInfo) (rest : List FileInfo) (h : file.isDir = true) :
    transferLoop env client wd fs i (file :: rest) = transferLoop env client wd fs (i + 1) rest := by
  simp [transferLoop, h]

theorem transferLoop_file (env : Env) (client : SftpClient) (wd : String) (fs : Share) (i : Nat)
    (file : FileInfo) (rest : List FileInfo) (h : file.isDir = false) :
    transferLoop env client wd fs i (file :: rest) =
      Run.bind (transferEntry env client wd fs i file)
        (fun _ => transferLoop env client wd fs (i + 1) rest) := by
  simp [transferLoop, h]

/-- Every call of the loop is issued for an entry of the listing that is not a directory,
with arguments built from that entry. -/
theorem loop_events (env : Env) (client : SftpClient) (wd : String) (fs : Share) :
    ∀ (l : List FileInfo) (i : Nat), ∀ e ∈ (transferLoop env client wd fs i l).trace,
      ∃ j f, l[j]? = some f ∧ f.isDir = false ∧ IssuedFor env client wd fs (i + j) f e := by
  intro l
  induction l with
  | nil => intro i e he; simp [transferLoop_nil] at he
  | cons file rest ih =>
    intro i e he
    have tail : e ∈ (transferLoop env client wd fs (i + 1) rest).trace →
        ∃ j f, (file :: rest)[j]? = some f ∧ f.isDir = false ∧
          IssuedFor env client wd fs (i + j) f e := by
      intro h
      obtain ⟨j, f, hj, hf, hI⟩ := ih (i + 1) e h
      refine ⟨j + 1, f, by simpa using hj, hf, ?_⟩
      have : i + (j + 1) = i + 1 + j := by omega
      rw [this]; exact hI
    cases hd : file.isDir
    · rw [transferLoop_file _ _ _ _ _ _ _ hd] at he
      have here : IssuedFor env client wd fs i file e →
          ∃ j f, (file :: rest)[j]? = some f ∧ f.isDir = false ∧
            IssuedFor env client wd fs (i + j) f e :=
        fun h => ⟨0, file, by simp, hd, by simpa using h⟩
      rcases transferEntry_cases env client wd fs i file with
        ⟨data, e1, hE, hdata⟩ | ⟨data, dst, e1, hE, hdata, hdst⟩ | ⟨data, dst, hE, hdata, hdst⟩
      · rw [hE] at he
        simp at he
        subst he
        exact here (by simp [IssuedFor, hdata])
      · rw [hE] at he
        simp at he
        rcases he with rfl | rfl
        · exact here (by simp [IssuedFor, hdata])
        · exact here (by simp [IssuedFor, hdst])
      · rw [hE] at he
        cases hr : env.remove i wd file.name
        · simp [hr] at he
          rcases he with rfl | rfl | rfl | rfl | h
          · exact here (by simp [IssuedFor, hdata])
          · exact here (by simp [IssuedFor, hdst])
          · exact here (by simp [IssuedFor, hdata, hdst])
          · exact here (by simp [IssuedFor])
          · exact tail h
        · simp [hr] at he
          rcases he with rfl | rfl | rfl | rfl
          · exact here (by simp [IssuedFor, hdata])
          · exact here (by simp [IssuedFor, hdst])
          · exact here (by simp [IssuedFor, hdata, hdst])
          · exact here (by simp [IssuedFor])
    · rw [transferLoop_dir _ _ _ _ _ _ _ hd] at he
      exact tail he

/-- A loop in which no call fails runs to its end. -/
theorem loop_returns (env : Env) (client : SftpClient) (wd : String) (fs : Share) :
    ∀ (l : List FileInfo) (i : Nat),
      (∀ e ∈ (transferLoop env client wd fs i l).trace, e.failed = false) →
      (transferLoop env client wd fs i l).result = .ok () := by
  intro l
  induction l with
  | nil => intro i _; rfl
  | cons file rest ih =>
    intro i h
    cases hd : file.isDir
    · rw [transferLoop_file _ _ _ _ _ _ _ hd] at h ⊢
      rcases transferEntry_cases env client wd fs i file with
        ⟨data, e1, hE, -⟩ | ⟨data, dst, e1, hE, -, -⟩ | ⟨data, dst, hE, -, -⟩
      · rw [hE] at h
        simp [Event.failed, Event.err] at h
      · rw [hE] at h
        simp [Event.failed, Event.err] at h
      · rw [hE] at h ⊢
        cases hr : env.remove i wd file.name
        · simp only [hr, bind_ok] at h ⊢
          exact ih (i + 1) (fun e he => h e (by simp [he]))
        · simp [hr, Event.failed, Event.err] at h
    · rw [transferLoop_dir _ _ _ _ _ _ _ hd] at h ⊢
      exact ih (i + 1) h

/-- A loop that runs to its end has issued, for each entry that is not a directory and in
listing order, the four calls open, create, copy, remove, and nothing else. -/
theorem loop_complete (env : Env) (client : SftpClient) (wd : String) (fs : Share) :
    ∀ (l : List FileInfo) (i : Nat),
      (transferLoop env client wd fs i l).result = .ok () →
      (transferLoop env client wd fs i l).trace.filterMap Event.step =
          (transferable i l).flatMap (fun p => fourSteps p.1) ∧
        (transferLoop env client wd fs i l).trace.filterMap Event.removedName =
          (l.filter (fun f => !f.isDir)).map FileInfo.name := by
  intro l
  induction l with
  | nil => intro i _; simp [transferLoop_nil, transferable]
  | cons file rest ih =>
    intro i h
    cases hd : file.isDir
    · rw [transferLoop_file _ _ _ _ _ _ _ hd] at h ⊢
      rcases transferEntry_cases env client wd fs i file with
        ⟨data, e1, hE, -⟩ | ⟨data, dst, e1, hE, -, -⟩ | ⟨data, dst, hE, -, -⟩
      · rw [hE] at h
        simp at h
      · rw [hE] at h
        simp at h
      · rw [hE] at h ⊢
        cases hr : env.remove i wd file.name
        · simp only [hr, bind_ok] at h ⊢
          obtain ⟨h1, h2⟩ := ih (i + 1) h
          simp [transferable, hd, Event.step, Event.removedName, fourSteps] at h1 ⊢
          simp [h1, h2, Event.step, Event.removedName]
        · simp [hr] at h
    · rw [transferLoop_dir _ _ _ _ _ _ _ hd] at h ⊢
      obtain ⟨h1, h2⟩ := ih (i + 1) h
      simp [transferable, hd] at h1 ⊢
      exact ⟨h1, h2⟩

/-! ## The connection helpers -/

theorem sshConn_ok (env : Env) (user pwd ftp_endpoint : String) (conn : SshClient)
    (h : env.sshDial "tcp" (ftp_endpoint ++ ":22") ⟨user, [pwd], true⟩ = (conn, none)) :
    sshConn env user pwd ftp_endpoint =
      ⟨[.sshDial "tcp" (ftp_endpoint ++ ":22") ⟨user, [pwd], true⟩ none], [],
        .ok (conn, none)⟩ := by
  simp [sshConn, sshDial, emit, h]

theorem sshConn_fails (env : Env) (user pwd ftp_endpoint : String) (conn : SshClient)
    (e : String)
    (h : env.sshDial "tcp" (ftp_endpoint ++ ":22") ⟨user, [pwd], true⟩ = (conn, some e)) :
    sshConn env user pwd ftp_endpoint =
      ⟨[.sshDial "tcp" (ftp_endpoint ++ ":22") ⟨user, [pwd], true⟩ (some e)], [],
        .stop (.fatal (String.join ["Unable to connect to", ftp_endpoint, ". Error:", e]))⟩ := by
  simp [sshConn, sshDial, emit, h, logFatal, abort, errorText]

theorem sftpConn_ok (env : Env) (conn : SshClient) (client : SftpClient)
    (h : env.sftpNewClient conn = (client, none)) :
    sftpConn env conn = ⟨[.sftpNewClient conn none], [], .ok (client, none)⟩ := by
  simp [sftpConn, sftpNewClient, emit, h]

theorem sftpConn_fails (env : Env) (conn : SshClient) (client : SftpClient) (e : String)
    (h : env.sftpNewClient conn = (client, some e)) :
    sftpConn env conn =
      ⟨[.sftpNewClient conn (some e)], [],
        .stop (.fatal (String.join ["Unable to open SFTP connection. Error:", e]))⟩ := by
  simp [sftpConn, sftpNewClient, emit, h, logFatal, abort, errorText]

theorem tcpConn_ok (env : Env) (smb_endpoint : String) (conn : Conn)
    (h : env.netDial "tcp" (smb_endpoint ++ ":445") = (conn, none)) :
    tcpConn env smb_endpoint =
      ⟨[.netDial "tcp" (smb_endpoint ++ ":445") none], [], .ok conn⟩ := by
  simp [tcpConn, netDial, emit, h]

theorem tcpConn_fails (env : Env) (smb_endpoint : String) (conn : Conn) (e : String)
    (h : env.netDial "tcp" (smb_endpoint ++ ":445") = (conn, some e)) :
    tcpConn env smb_endpoint =
      ⟨[.netDial "tcp" (smb_endpoint ++ ":445") (some e)], [],
        .stop (.fatal (String.join ["Unable to connect to SMB port. Error:", e]))⟩ := by
  simp [tcpConn, netDial, emit, h, logFatal, abort, errorText]

theorem smbConn_ok (env : Env) (conn : Conn) (user password domain : String)
    (session : Session) (h : env.smbDial ⟨user, password, domain⟩ conn = (session, none)) :
    smbConn env conn user password domain =
      ⟨[.smbDial ⟨user, password, domain⟩ conn none], [], .ok (session, none)⟩ := by
  simp [smbConn, smbDial, emit, h]

theorem smbConn_fails (env : Env) (conn : Conn) (user password domain : String)
    (session : Session) (e : String)
    (h : env.smbDial ⟨user, password, domain⟩ conn = (session, some e)) :
    smbConn env conn user password domain =
      ⟨[.smbDial ⟨user, password, domain⟩ conn (some e)], [],
        .stop (.fatal (String.join ["Unable to open SMB connection. Error:", e]))⟩ := by
  simp [smbConn, smbDial, emit, h, logFatal, abort, errorText]

/-! ## The statements before the loop -/

/-- Either a step before the loop stopped the run, and then only setup calls were issued, or
all of them succeeded and the rest of the run is the transfer loop over the listing. -/
theorem mainBody_shape (env : Env) :
    (∃ why, (mainBody env).result = .stop why ∧
      ((∃ msg, why = .fatal msg) ∨ ∀ e ∈ (mainBody env).trace, e.setupFailure = false) ∧
      (∀ e ∈ (mainBody env).trace, e.step = none ∧ ∀ d, e ≠ .run d) ∧
      (∃ e ∈ (mainBody env).trace, e.isSetup = true ∧ e.failed = true)) ∨
    (∃ conn client wd files tcpconn session fs cfg addr d addr2 mnt line,
      (mainBody env).trace =
        [.sshDial "tcp" addr cfg none, .sftpNewClient conn none, .getwd client none,
         .println line, .readDir client wd files none, .netDial "tcp" addr2 none,
         .smbDial d tcpconn none, .mount session mnt none]
        ++ (transferLoop env client wd fs 0 files).trace ∧
      (mainBody env).deferred =
        [.sshClose conn, .sftpClose client, .connClose tcpconn, .logoff session]
        ++ (transferLoop env client wd fs 0 files).deferred ∧
      (mainBody env).result = (transferLoop env client wd fs 0 files).result) := by
  rcases h1 : env.sshDial "tcp" (env.getenv "SFTP" ++ ":22")
    ⟨env.getenv "SFTP_USERNAME", [env.getenv "SFTP_PASSWORD"], true⟩ with ⟨conn, _ | e⟩
  swap
  · left
    simp [mainBody, sshConn_fails _ _ _ _ _ _ h1, Event.step, Event.failed, Event.err,
      Event.setupFailure, Event.isSetup]
  rcases h2 : env.sftpNewClient conn with ⟨client, _ | e⟩
  swap
  · left
    simp [mainBody, sshConn_ok _ _ _ _ _ h1, sftpConn_fails _ _ _ _ h2, defer, Event.step,
      Event.failed, Event.err, Event.setupFailure, Event.isSetup]
  rcases h3 : env.getwd client with ⟨wd, _ | e⟩
  swap
  · left
    simp [mainBody, sshConn_ok _ _ _ _ _ h1, sftpConn_ok _ _ _ h2, defer, getwd, emit, h3,
      logFatal, abort, errorText, Event.step, Event.failed, Event.err, Event.setupFailure, Event.isSetup]
  rcases h4 : env.readDir client wd with ⟨files, _ | e⟩
  swap
  · left
    simp [mainBody, sshConn_ok _ _ _ _ _ h1, sftpConn_ok _ _ _ h2, defer, getwd, emit, h3,
      println, readDir, h4, logFatal, abort, errorText, Event.step, Event.failed, Event.err,
      Event.setupFailure, Event.isSetup]
  rcases h5 : env.netDial "tcp" (env.getenv "SMB" ++ ":445") with ⟨tcpconn, _ | e⟩
  swap
  · left
    simp [mainBody, sshConn_ok _ _ _ _ _ h1, sftpConn_ok _ _ _ h2, defer, getwd, emit, h3,
      println, readDir, h4, tcpConn_fails _ _ _ _ h5, Event.step, Event.failed, Event.err,
      Event.setupFailure, Event.isSetup]
  rcases h6 : env.smbDial
    ⟨env.getenv "SMB_USERNAME", env.getenv "SMB_PASSWORD", env.getenv "SMB_DOMAIN"⟩ tcpconn
    with ⟨session, _ | e⟩
  swap
  · left
    simp [mainBody, sshConn_ok _ _ _ _ _ h1, sftpConn_ok _ _ _ h2, defer, getwd, emit, h3,
      println, readDir, h4, tcpConn_ok _ _ _ h5, smbConn_fails _ _ _ _ _ _ _ h6, Event.step,
      Event.failed, Event.err, Event.setupFailure, Event.isSetup]
  rcases h7 : env.mount session (env.getenv "MOUNT") with ⟨fs, _ | e⟩
  swap
  · left
    simp [mainBody, sshConn_ok _ _ _ _ _ h1, sftpConn_ok _ _ _ h2, defer, getwd, emit, h3,
      println, readDir, h4, tcpConn_ok _ _ _ h5, smbConn_ok _ _ _ _ _ _ h6, mount, h7,
      logFatal, abort, errorText, Event.step, Event.failed, Event.err, Event.setupFailure, Event.isSetup]
  right
  refine ⟨conn, client, wd, files, tcpconn, session, fs,
    ⟨env.getenv "SFTP_USERNAME", [env.getenv "SFTP_PASSWORD"], true⟩, env.getenv "SFTP" ++ ":22",
    ⟨env.getenv "SMB_USERNAME", env.getenv "SMB_PASSWORD", env.getenv "SMB_DOMAIN"⟩,
    env.getenv "SMB" ++ ":445", env.getenv "MOUNT",
    String.intercalate " " ["SFTP folder:", wd] ++ "\n", ?_⟩
  simp [mainBody, sshConn_ok _ _ _ _ _ h1, sftpConn_ok _ _ _ h2, defer, getwd, emit, h3,
    println, readDir, h4, tcpConn_ok _ _ _ h5, smbConn_ok _ _ _ _ _ _ h6, mount, h7]

/-! ## The whole run -/

theorem runDeferred_run (ds : List Deferred) : ∀ e ∈ runDeferred ds, ∃ d, e = .run d := by
  intro e he
  simp only [runDeferred, List.mem_map] at he
  obtain ⟨d, -, rfl⟩ := he
  exact ⟨d, rfl⟩

theorem step_run (e : Event) (h : ∃ d, e = .run d) :
    e.step = none ∧ e.failed = false ∧ e.setupFailure = false ∧ e.isReadDir = false ∧
      e.isSetup = false ∧ e.removedName = none ∧ e.createdAt = none := by
  obtain ⟨d, rfl⟩ := h
  simp [Event.step, Event.failed, Event.err, Event.setupFailure, Event.isReadDir, Event.isSetup,
    Event.removedName, Event.createdAt]

theorem issuedFor_step (env : Env) (client : SftpClient) (wd : String) (fs : Share) (k : Nat)
    (f : FileInfo) (e : Event) (h : IssuedFor env client wd fs k f e) :
    (∃ op, e.step = some (op, k)) ∧ e.setupFailure = false ∧ e.isReadDir = false ∧
      e.isSetup = false ∧ ∀ d, e ≠ .run d := by
  cases e <;> simp [IssuedFor] at h <;>
    simp [Event.step, Event.setupFailure, Event.isReadDir, Event.isSetup, h.1]

/-- A run of `main` either stops before the loop, having issued no call of the loop, or is
the eight calls before the loop, then the loop, then deferred calls only. -/
theorem main_cases (env : Env) :
    ((main env).outcome ≠ .returned ∧
      ((∃ msg, (main env).outcome = .fatal msg) ∨
        ∀ e ∈ (main env).trace, e.setupFailure = false) ∧
      (∀ e ∈ (main env).trace, e.step = none) ∧
      (∃ e ∈ (main env).trace, e.isSetup = true ∧ e.failed = true)) ∨
    (∃ conn client wd files tcpconn session fs cfg addr d addr2 mnt line closes,
      (main env).trace =
        [.sshDial "tcp" addr cfg none, .sftpNewClient conn none, .getwd client none,
         .println line, .readDir client wd files none, .netDial "tcp" addr2 none,
         .smbDial d tcpconn none, .mount session mnt none]
        ++ ((transferLoop env client wd fs 0 files).trace ++ closes) ∧
      (∀ e ∈ closes, ∃ d, e = .run d) ∧
      ((main env).outcome = .returned ↔
        (transferLoop env client wd fs 0 files).result = .ok ())) := by
  rcases mainBody_shape env with ⟨why, hres, hwhy, hsteps, hfail⟩ |
    ⟨conn, client, wd, files, tcpconn, session, fs, cfg, addr, d, addr2, mnt, line, ht, hd, hr⟩
  · left
    cases why with
    | fatal msg =>
      have hm : main env = ⟨(mainBody env).trace, .fatal msg⟩ := by simp [main, hres]
      rw [hm]
      refine ⟨by simp, Or.inl ⟨msg, rfl⟩, fun e he => (hsteps e he).1, hfail⟩
    | panic msg =>
      have hm : main env =
          ⟨(mainBody env).trace ++ runDeferred (mainBody env).deferred, .panicked msg⟩ := by
        simp [main, hres]
      rw [hm]
      rcases hwhy with ⟨m, hm2⟩ | hno
      · cases hm2
      · refine ⟨by simp, Or.inr ?_, ?_, ?_⟩
        · intro e he
          rcases List.mem_append.1 he with h | h
          · exact hno e h
          · exact (step_run e (runDeferred_run _ e h)).2.2.1
        · intro e he
          rcases List.mem_append.1 he with h | h
          · exact (hsteps e h).1
          · exact (step_run e (runDeferred_run _ e h)).1
        · obtain ⟨e, he, hf⟩ := hfail
          exact ⟨e, List.mem_append.2 (Or.inl he), hf⟩
  · right
    cases hl : (transferLoop env client wd fs 0 files).result with
    | ok u =>
      refine ⟨conn, client, wd, files, tcpconn, session, fs, cfg, addr, d, addr2, mnt, line,
        runDeferred (mainBody env).deferred, ?_, runDeferred_run _, ?_⟩
      · simp [main, hr, hl, ht]
      · simp [main, hr, hl]
    | stop why =>
      cases why with
      | fatal msg =>
        refine ⟨conn, client, wd, files, tcpconn, session, fs, cfg, addr, d, addr2, mnt, line,
          [], ?_, by simp, ?_⟩
        · simp [main, hr, hl, ht]
        · simp [main, hr, hl]
      | panic msg =>
        refine ⟨conn, client, wd, files, tcpconn, session, fs, cfg, addr, d, addr2, mnt, line,
          runDeferred (mainBody env).deferred, ?_, runDeferred_run _, ?_⟩
        · simp [main, hr, hl, ht]
        · simp [main, hr, hl]

/-- In a run that reaches the loop, the `ReadDir` call before the loop is the only one. -/
theorem readDir_in_run (env : Env) (t closes : List Event) (conn : SshClient)
    (client1 : SftpClient) (wd : String) (files : List FileInfo) (tcpconn : Conn)
    (session : Session) (fs : Share) (cfg : ClientConfig) (addr : String) (d : Dialer)
    (addr2 mnt line : String)
    (ht : t =
      [.sshDial "tcp" addr cfg none, .sftpNewClient conn none, .getwd client1 none,
       .println line, .readDir client1 wd files none, .netDial "tcp" addr2 none,
       .smbDial d tcpconn none, .mount session mnt none]
      ++ ((transferLoop env client1 wd fs 0 files).trace ++ closes))
    (hc : ∀ e ∈ closes, ∃ d, e = .run d)
    (client : SftpClient) (dir : String) (D : List FileInfo) (err : GoError)
    (hD : Event.readDir client dir D err ∈ t) :
    client = client1 ∧ dir = wd ∧ D = files ∧ err = none := by
  rw [ht] at hD
  simp only [List.cons_append, List.nil_append, List.mem_cons, List.mem_append] at hD
  rcases hD with h | h | h | h | h | h | h | h | h | h
  · simp at h
  · simp at h
  · simp at h
  · simp at h
  · simp at h
    exact h
  · simp at h
  · simp at h
  · simp at h
  · obtain ⟨j, f, -, -, hI⟩ := loop_events env client1 wd fs files 0 _ h
    simp [IssuedFor] at hI
  · obtain ⟨d1, h1⟩ := hc _ h
    simp at h1

/-- In a run that reaches the loop, every call of the loop is issued by the loop. -/
theorem step_in_run (env : Env) (t closes : List Event) (conn : SshClient)
    (client1 : SftpClient) (wd : String) (files : List FileInfo) (tcpconn : Conn)
    (session : Session) (fs : Share) (cfg : ClientConfig) (addr : String) (d : Dialer)
    (addr2 mnt line : String)
    (ht : t =
      [.sshDial "tcp" addr cfg none, .sftpNewClient conn none, .getwd client1 none,
       .println line, .readDir client1 wd files none, .netDial "tcp" addr2 none,
       .smbDial d tcpconn none, .mount session mnt none]
      ++ ((transferLoop env client1 wd fs 0 files).trace ++ closes))
    (hc : ∀ e ∈ closes, ∃ d, e = .run d)
    (e : Event) (he : e ∈ t) (op : Op) (i : Nat) (hs : e.step = some (op, i)) :
    e ∈ (transferLoop env client1 wd fs 0 files).trace := by
  rw [ht] at he
  simp only [List.cons_append, List.nil_append, List.mem_cons, List.mem_append] at he
  rcases he with h | h | h | h | h | h | h | h | h | h
  · subst h; simp [Event.step] at hs
  · subst h; simp [Event.step] at hs
  · subst h; simp [Event.step] at hs
  · subst h; simp [Event.step] at hs
  · subst h; simp [Event.step] at hs
  · subst h; simp [Event.step] at hs
  · subst h; simp [Event.step] at hs
  · subst h; simp [Event.step] at hs
  · exact h
  · rw [(step_run e (hc e h)).1] at hs
    simp at hs

/-- Every call of the loop found in a run belongs to an entry, not a directory, of the
listing that the `ReadDir` call of that run returned, and is built from that entry. -/
theorem main_issued (env : Env) (client : SftpClient) (dir : String) (D : List FileInfo)
    (err : GoError) (hD : Event.readDir client dir D err ∈ (main env).trace) :
    ∃ fs, ∀ e ∈ (main env).trace, ∀ op i, e.step = some (op, i) →
      ∃ f, D[i]? = some f ∧ f.isDir = false ∧ IssuedFor env client dir fs i f e := by
  rcases main_cases env with ⟨-, -, hsteps, -⟩ |
    ⟨conn, client1, wd, files, tcpconn, session, fs, cfg, addr, d, addr2, mnt, line, closes,
      ht, hc, -⟩
  · exact ⟨⟨0⟩, fun e he op i hs => by simp [hsteps e he] at hs⟩
  · refine ⟨fs, ?_⟩
    obtain ⟨rfl, rfl, rfl, -⟩ := readDir_in_run env _ closes conn client1 wd files tcpconn
      session fs cfg addr d addr2 mnt line ht hc client dir D err hD
    intro e he op i hs
    have h := step_in_run env _ closes conn client dir D tcpconn session fs cfg addr d addr2
      mnt line ht hc e he op i hs
    obtain ⟨j, f, hj, hf, hI⟩ := loop_events env client dir fs D 0 e h
    obtain ⟨⟨op1, h1⟩, -⟩ := issuedFor_step env client dir fs (0 + j) f e hI
    rw [h1] at hs
    simp at hs
    obtain ⟨-, rfl⟩ := hs
    simp only [Nat.zero_add] at hI
    exact ⟨f, hj, hf, hI⟩

/-- A run that issues a call of the loop has read the listing before. -/
theorem main_listing (env : Env) (e : Event) (he : e ∈ (main env).trace) (op : Op) (i : Nat)
    (hs : e.step = some (op, i)) :
    ∃ client dir D, Event.readDir client dir D none ∈ (main env).trace := by
  rcases main_cases env with ⟨-, -, hsteps, -⟩ |
    ⟨conn, client1, wd, files, tcpconn, session, fs, cfg, addr, d, addr2, mnt, line, closes,
      ht, hc, -⟩
  · simp [hsteps e he] at hs
  · exact ⟨client1, wd, files, by simp [ht]⟩

theorem filterMap_step_closes (closes : List Event) (hc : ∀ e ∈ closes, ∃ d, e = .run d) :
    closes.filterMap Event.step = [] ∧ closes.filterMap Event.removedName = [] := by
  induction closes with
  | nil => simp
  | cons e rest ih =>
    obtain ⟨h1, h2⟩ := ih (fun x hx => hc x (List.mem_cons_of_mem _ hx))
    have he := step_run e (hc e (List.mem_cons_self _ _))
    simp [List.filterMap_cons, he.1, he.2.2.2.2.2.1, h1, h2]

/-- As long as no deferred call has run, every destination handle created is open. -/
theorem openDst_no_close (p : List Event) (hp : ∀ d, Event.run d ∉ p) :
    ∀ acc, p.foldl openDstStep acc = acc ++ p.filterMap Event.createdAt := by
  induction p with
  | nil => intro acc; simp
  | cons e rest ih =>
    intro acc
    have hrest : ∀ d, Event.run d ∉ rest := fun d hd => hp d (List.mem_cons_of_mem _ hd)
    have hne : ∀ d, e ≠ Event.run d := fun d hd => hp d (hd ▸ List.mem_cons_self _ _)
    rw [List.foldl_cons, ih hrest]
    cases e with
    | create i n dst err =>
      cases err <;> simp [openDstStep, Event.createdAt, List.filterMap_cons]
    | run d => exact absurd rfl (hne d)
    | _ => simp [openDstStep, Event.createdAt, List.filterMap_cons]

theorem count_fourSteps (op : Op) (i k : Nat) :
    (fourSteps k).count (op, i) = if i = k then 1 else 0 := by
  by_cases h : i = k
  · subst h
    cases op <;> simp [fourSteps, List.count_cons]
  · have h2 : ¬ k = i := fun e => h e.symm
    cases op <;> simp [fourSteps, List.count_cons, h, h2]

/-- In the calls of a complete loop, each call occurs once for each position that holds an
entry which is not a directory, and for no other position. -/
theorem count_transferable (op : Op) (i : Nat) :
    ∀ (D : List FileInfo) (k : Nat),
      ((transferable k D).flatMap (fun q => fourSteps q.1)).count (op, i) =
        if k ≤ i ∧ (D[i - k]?).map FileInfo.isDir = some false then 1 else 0 := by
  intro D
  induction D with
  | nil => intro k; simp [transferable]
  | cons file rest ih =>
    intro k
    have hsplit : transferable k (file :: rest) =
        (if file.isDir then [] else [(k, file)]) ++ transferable (k + 1) rest := by
      cases hd : file.isDir <;> simp [transferable, hd]
    rw [hsplit, List.flatMap_append, List.count_append, ih (k + 1)]
    rcases Nat.lt_trichotomy i k with hlt | heq | hgt
    · have h1 : ¬ k ≤ i := by omega
      have h2 : ¬ k + 1 ≤ i := by omega
      have h3 : ¬ i = k := by omega
      cases hd : file.isDir <;> simp [h1, h2, h3, count_fourSteps]
    · subst heq
      cases hd : file.isDir <;> simp [count_fourSteps, hd]
    · have h1 : k ≤ i := by omega
      have h2 : k + 1 ≤ i := by omega
      have h3 : ¬ i = k := by omega
      have h4 : i - k = (i - (k + 1)) + 1 := by omega
      rw [h4, List.getElem?_cons_succ]
      cases hd : file.isDir <;> simp [h1, h2, h3, count_fourSteps]

/-- A copy that returns a nil error has written the whole stream. -/
theorem copyStream_ok (content : List Byte) (fault : Option (Nat × String))
    (h : (copyStream content fault).2 = none) : (copyStream content fault).1 = content := by
  cases fault with
  | none => rfl
  | some q =>
    obtain ⟨k, msg⟩ := q
    simp [copyStream] at h

theorem writtenAt_of_step (e : Event) (i : Nat) (h : ∀ op, e.step ≠ some (op, i)) :
    e.writtenAt i = none := by
  cases e <;> simp [Event.writtenAt, Event.step] at h ⊢
  exact h

/-- The calls of a loop that starts at position `k` write nothing to the destination of an
entry before `k`. -/
theorem loop_written_below (env : Env) (client : SftpClient) (wd : String) (fs : Share)
    (l : List FileInfo) (k i : Nat) (hik : i < k) :
    (transferLoop env client wd fs k l).trace.filterMap (Event.writtenAt i) = [] := by
  rw [List.filterMap_eq_nil_iff]
  intro e he
  obtain ⟨j, f, -, -, hI⟩ := loop_events env client wd fs l k e he
  obtain ⟨⟨op1, h1⟩, -⟩ := issuedFor_step env client wd fs (k + j) f e hI
  apply writtenAt_of_step
  intro op hop
  rw [h1] at hop
  simp at hop
  omega

/-- The loop issues at most one copy to the destination of an entry. -/
theorem loop_written_once (env : Env) (client : SftpClient) (wd : String) (fs : Share)
    (i : Nat) :
    ∀ (l : List FileInfo) (k : Nat),
      ((transferLoop env client wd fs k l).trace.filterMap (Event.writtenAt i)).length ≤ 1 := by
  intro l
  induction l with
  | nil => intro k; simp [transferLoop_nil]
  | cons file rest ih =>
    intro k
    cases hd : file.isDir
    · rw [transferLoop_file _ _ _ _ _ _ _ hd]
      rcases transferEntry_cases env client wd fs k file with
        ⟨data, e1, hE, -⟩ | ⟨data, dst, e1, hE, -, -⟩ | ⟨data, dst, hE, -, -⟩
      · rw [hE]
        simp [Event.writtenAt]
      · rw [hE]
        simp [Event.writtenAt]
      · rw [hE]
        cases hr : env.remove k wd file.name
        · simp only [hr, bind_ok]
          by_cases hki : k = i
          · subst hki
            have hrest := loop_written_below env client wd fs rest (k + 1) k (by omega)
            simp [List.filterMap_cons, Event.writtenAt, hrest]
          · have := ih (k + 1)
            simpa [List.filterMap_cons, Event.writtenAt, hki] using this
        · by_cases hki : k = i <;> simp [hr, List.filterMap_cons, Event.writtenAt, hki]
    · rw [transferLoop_dir _ _ _ _ _ _ _ hd]
      exact ih (k + 1)

/-- A run issues at most one copy to the destination of an entry. -/
theorem main_written_once (env : Env) (i : Nat) :
    ((main env).trace.filterMap (Event.writtenAt i)).length ≤ 1 := by
  rcases main_cases env with ⟨-, -, hsteps, -⟩ |
    ⟨conn, client1, wd, files, tcpconn, session, fs, cfg, addr, d, addr2, mnt, line, closes,
      ht, hc, -⟩
  · have : (main env).trace.filterMap (Event.writtenAt i) = [] := by
      rw [List.filterMap_eq_nil_iff]
      intro e he
      exact writtenAt_of_step e i (fun op hop => by rw [hsteps e he] at hop; cases hop)
    simp [this]
  · have hcl : closes.filterMap (Event.writtenAt i) = [] := by
      rw [List.filterMap_eq_nil_iff]
      intro e he
      exact writtenAt_of_step e i
        (fun op hop => by rw [(step_run e (hc e he)).1] at hop; cases hop)
    rw [ht]
    simpa [List.filterMap_append, List.filterMap_cons, Event.writtenAt, hcl] using
      loop_written_once env client1 wd fs i files 0

theorem eq_singleton_of_mem {α : Type} (l : List α) (x : α) (hl : l.length ≤ 1) (hx : x ∈ l) :
    l = [x] := by
  match l, hl, hx with
  | [y], _, hx => simp at hx; rw [hx]
  | _ :: _ :: _, hl, _ => simp at hl

/-! ## The claims -/

/-- C2. For every directory listing `D` returned by `ReadDir`, every open, create, copy and
remove call of the run is issued for a position of `D` whose entry has `IsDir() = false`:
no directory entry is ever opened, created, copied or deleted. -/
theorem directories_never_transferred (env : Env) (client : SftpClient) (dir : String)
    (D : List FileInfo) (err : GoError)
    (hD : Event.readDir client dir D err ∈ (main env).trace) :
    ∀ e ∈ (main env).trace, ∀ op i, e.step = some (op, i) →
      ∃ f, D[i]? = some f ∧ f.isDir = false := by
  obtain ⟨fs, h⟩ := main_issued env client dir D err hD
  intro e he op i hs
  obtain ⟨f, hf, hd, -⟩ := h e he op i hs
  exact ⟨f, hf, hd⟩

theorem directories_never_transferred_witness :
    Event.readDir ⟨2⟩ "/home" [⟨"a", false⟩, ⟨"d", true⟩, ⟨"b", false⟩] none ∈
        (main (okEnv [⟨"a", false⟩, ⟨"d", true⟩, ⟨"b", false⟩] [1, 2] "archive/")).trace ∧
      ∀ e ∈ (main (okEnv [⟨"a", false⟩, ⟨"d", true⟩, ⟨"b", false⟩] [1, 2] "archive/")).trace,
        ∀ op i, e.step = some (op, i) →
          ∃ f, [(⟨"a", false⟩ : FileInfo), ⟨"d", true⟩, ⟨"b", false⟩][i]? = some f ∧
            f.isDir = false :=
  ⟨by decide, directories_never_transferred _ ⟨2⟩ "/home" _ none (by decide)⟩

/-- C4. For every entry of the listing whose transfer completes (its open, create, copy and
remove calls all returned a nil error): the entry is not a directory; the source was opened
at `wd/name` and the handle of that open is the one the copy read; the destination was
created at `PATH ++ name` and the handle of that create is the one the copy wrote; the entry
removed is `name`; the bytes the copy wrote are, byte for byte and in order, the bytes of the
source file; and these are all the bytes the run wrote to that destination. -/
theorem successful_transfer_copies_content (env : Env) (client : SftpClient) (dir : String)
    (D : List FileInfo) (err : GoError)
    (hD : Event.readDir client dir D err ∈ (main env).trace) (i : Nat)
    (p n nm : String) (data src : SftpFile) (dst dst2 : SmbFile) (written : List Byte)
    (ho : Event.sftpOpen i p data none ∈ (main env).trace)
    (hc : Event.create i n dst none ∈ (main env).trace)
    (hcopy : Event.writeTo i src dst2 written none ∈ (main env).trace)
    (hr : Event.remove i nm none ∈ (main env).trace) :
    ∃ f, D[i]? = some f ∧ f.isDir = false ∧
      p = dir ++ "/" ++ f.name ∧ data = (env.sftpOpen i client p).1 ∧
      n = env.getenv "PATH" ++ f.name ∧ nm = f.name ∧
      src = data ∧ dst2 = dst ∧ written = data.content ∧
      writtenTo (main env).trace i = data.content := by
  obtain ⟨fs, h⟩ := main_issued env client dir D err hD
  obtain ⟨f1, hf1, hdir, h1⟩ := h _ ho .opened i rfl
  obtain ⟨f2, hf2, -, h2⟩ := h _ hc .created i rfl
  obtain ⟨f3, hf3, -, h3⟩ := h _ hcopy .copied i rfl
  obtain ⟨f4, hf4, -, h4⟩ := h _ hr .removed i rfl
  have e12 : f2 = f1 := by rw [hf1] at hf2; exact (Option.some.inj hf2).symm
  have e13 : f3 = f1 := by rw [hf1] at hf3; exact (Option.some.inj hf3).symm
  have e14 : f4 = f1 := by rw [hf1] at hf4; exact (Option.some.inj hf4).symm
  subst e12 e13 e14
  simp only [IssuedFor] at h1 h2 h3 h4
  obtain ⟨-, hp, hdata⟩ := h1
  obtain ⟨-, hn, hdst⟩ := h2
  obtain ⟨-, hsrc, hdst2, hwr, herr⟩ := h3
  obtain ⟨-, hnm⟩ := h4
  have e1 : src = data := by rw [hsrc, hdata, hp]
  have e2 : dst2 = dst := by rw [hdst2, hdst, hn]
  have e3 : written = data.content := by
    rw [hwr, copyStream_ok _ _ herr.symm, e1]
  refine ⟨f4, hf1, hdir, hp, hdata, hn, hnm, e1, e2, e3, ?_⟩
  have hmem : written ∈ (main env).trace.filterMap (Event.writtenAt i) :=
    List.mem_filterMap.2 ⟨_, hcopy, by simp [Event.writtenAt]⟩
  rw [writtenTo, eq_singleton_of_mem _ _ (main_written_once env i) hmem, ← e3]
  simp

theorem successful_transfer_copies_content_witness :
    Event.readDir ⟨2⟩ "/home" [⟨"d", true⟩, ⟨"a", false⟩] none ∈
        (main (okEnv [⟨"d", true⟩, ⟨"a", false⟩] [7, 8, 9] "archive/")).trace ∧
      Event.sftpOpen 1 "/home/a" ⟨"/home/a", [7, 8, 9]⟩ none ∈
        (main (okEnv [⟨"d", true⟩, ⟨"a", false⟩] [7, 8, 9] "archive/")).trace ∧
      Event.create 1 "archive/a" ⟨"archive/a", 1⟩ none ∈
        (main (okEnv [⟨"d", true⟩, ⟨"a", false⟩] [7, 8, 9] "archive/")).trace ∧
      Event.writeTo 1 ⟨"/home/a", [7, 8, 9]⟩ ⟨"archive/a", 1⟩ [7, 8, 9] none ∈
        (main (okEnv [⟨"d", true⟩, ⟨"a", false⟩] [7, 8, 9] "archive/")).trace ∧
      Event.remove 1 "a" none ∈
        (main (okEnv [⟨"d", true⟩, ⟨"a", false⟩] [7, 8, 9] "archive/")).trace ∧
      ∃ f, [(⟨"d", true⟩ : FileInfo), ⟨"a", false⟩][1]? = some f ∧ f.isDir = false ∧
        "/home/a" = "/home" ++ "/" ++ f.name ∧
        (⟨"/home/a", [7, 8, 9]⟩ : SftpFile) =
          ((okEnv [⟨"d", true⟩, ⟨"a", false⟩] [7, 8, 9] "archive/").sftpOpen 1 ⟨2⟩
            "/home/a").1 ∧
        "archive/a" =
          (okEnv [⟨"d", true⟩, ⟨"a", false⟩] [7, 8, 9] "archive/").getenv "PATH" ++ f.name ∧
        "a" = f.name ∧
        (⟨"/home/a", [7, 8, 9]⟩ : SftpFile) = ⟨"/home/a", [7, 8, 9]⟩ ∧
        (⟨"archive/a", 1⟩ : SmbFile) = ⟨"archive/a", 1⟩ ∧
        ([7, 8, 9] : List Byte) = (⟨"/home/a", [7, 8, 9]⟩ : SftpFile).content ∧
        writtenTo (main (okEnv [⟨"d", true⟩, ⟨"a", false⟩] [7, 8, 9] "archive/")).trace 1 =
          (⟨"/home/a", [7, 8, 9]⟩ : SftpFile).content :=
  ⟨by decide, by decide, by decide, by decide, by decide,
    successful_transfer_copies_content (okEnv [⟨"d", true⟩, ⟨"a", false⟩] [7, 8, 9] "archive/")
      ⟨2⟩ "/home" [⟨"d", true⟩, ⟨"a", false⟩] none (by decide) 1 "/home/a" "archive/a" "a"
      ⟨"/home/a", [7, 8, 9]⟩ ⟨"/home/a", [7, 8, 9]⟩ ⟨"archive/a", 1⟩ ⟨"archive/a", 1⟩
      [7, 8, 9] (by decide) (by decide) (by decide) (by decide)⟩

/-- C5. For every value of `PATH` and every entry for which a destination file is created,
the name passed to `Create` is exactly `PATH ++ name` (nothing inserted between them): with
`PATH = ""` it is the entry name itself, with `PATH = "archive/"` it is
`"archive/" ++ name`. -/
theorem destination_name_is_concatenation (env : Env) (client : SftpClient) (dir : String)
    (D : List FileInfo) (err : GoError)
    (hD : Event.readDir client dir D err ∈ (main env).trace) :
    ∀ i n dst e, Event.create i n dst e ∈ (main env).trace →
      ∃ f, D[i]? = some f ∧ n = env.getenv "PATH" ++ f.name ∧
        (env.getenv "PATH" = "" → n = f.name) ∧
        (env.getenv "PATH" = "archive/" → n = "archive/" ++ f.name) := by
  obtain ⟨fs, h⟩ := main_issued env client dir D err hD
  intro i n dst e hc
  obtain ⟨f, hf, -, hI⟩ := h _ hc .created i rfl
  simp only [IssuedFor] at hI
  obtain ⟨-, hn, -⟩ := hI
  refine ⟨f, hf, hn, ?_, ?_⟩
  · intro hp
    rw [hn, hp, String.empty_append]
  · intro hp
    rw [hn, hp]

theorem destination_name_is_concatenation_witness :
    Event.readDir ⟨2⟩ "/home" [⟨"a", false⟩, ⟨"b", false⟩] none ∈
        (main (okEnv [⟨"a", false⟩, ⟨"b", false⟩] [1] "archive/")).trace ∧
      ∀ i n dst e, Event.create i n dst e ∈
          (main (okEnv [⟨"a", false⟩, ⟨"b", false⟩] [1] "archive/")).trace →
        ∃ f, [(⟨"a", false⟩ : FileInfo), ⟨"b", false⟩][i]? = some f ∧
          n = (okEnv [⟨"a", false⟩, ⟨"b", false⟩] [1] "archive/").getenv "PATH" ++ f.name ∧
          ((okEnv [⟨"a", false⟩, ⟨"b", false⟩] [1] "archive/").getenv "PATH" = "" →
            n = f.name) ∧
          ((okEnv [⟨"a", false⟩, ⟨"b", false⟩] [1] "archive/").getenv "PATH" = "archive/" →
            n = "archive/" ++ f.name) :=
  ⟨by decide, destination_name_is_concatenation _ ⟨2⟩ "/home" _ none (by decide)⟩

/-- C6. If a connection-setup step fails (SSH dial, SFTP session open, TCP dial, SMB session
negotiation or share mount), the run ends in `log.Fatal` before the loop: no source file is
opened, no destination file is created, nothing is copied and nothing is deleted. -/
theorem setup_failure_transfers_nothing (env : Env)
    (h : ∃ e ∈ (main env).trace, e.setupFailure = true) :
    (∃ msg, (main env).outcome = .fatal msg) ∧ ∀ e ∈ (main env).trace, e.step = none := by
  rcases main_cases env with ⟨-, hwhy, hsteps, -⟩ |
    ⟨conn, client1, wd, files, tcpconn, session, fs, cfg, addr, d, addr2, mnt, line, closes,
      ht, hc, -⟩
  · rcases hwhy with hfatal | hno
    · exact ⟨hfatal, hsteps⟩
    · obtain ⟨e, he, hf⟩ := h
      rw [hno e he] at hf
      cases hf
  · obtain ⟨e, he, hf⟩ := h
    rw [ht] at he
    simp only [List.cons_append, List.nil_append, List.mem_cons, List.mem_append] at he
    rcases he with h | h | h | h | h | h | h | h | h | h
    · subst h; simp [Event.setupFailure] at hf
    · subst h; simp [Event.setupFailure] at hf
    · subst h; simp [Event.setupFailure] at hf
    · subst h; simp [Event.setupFailure] at hf
    · subst h; simp [Event.setupFailure] at hf
    · subst h; simp [Event.setupFailure] at hf
    · subst h; simp [Event.setupFailure] at hf
    · subst h; simp [Event.setupFailure] at hf
    · obtain ⟨j, f, -, -, hI⟩ := loop_events env client1 wd fs files 0 e h
      rw [(issuedFor_step env client1 wd fs (0 + j) f e hI).2.1] at hf
      cases hf
    · rw [(step_run e (hc e h)).2.2.1] at hf
      cases hf

theorem setup_failure_transfers_nothing_witness :
    (∃ e ∈ (main smbFailsEnv).trace, e.setupFailure = true) ∧
      (∃ msg, (main smbFailsEnv).outcome = .fatal msg) ∧
      ∀ e ∈ (main smbFailsEnv).trace, e.step = none :=
  ⟨⟨.smbDial ⟨"SMB_USERNAME", "SMB_PASSWORD", "SMB_DOMAIN"⟩ ⟨3⟩ (some "logon failure"),
      by decide, rfl⟩,
    setup_failure_transfers_nothing smbFailsEnv
      ⟨.smbDial ⟨"SMB_USERNAME", "SMB_PASSWORD", "SMB_DOMAIN"⟩ ⟨3⟩ (some "logon failure"),
        by decide, rfl⟩⟩

/-- C7. When every call before the loop succeeds and the listing is empty, `main` returns
normally and has issued no open, no create, no copy and no remove. -/
theorem empty_listing_completes (env : Env)
    (hsetup : ∀ e ∈ (main env).trace, e.isSetup = true → e.failed = false)
    (hempty : ∃ client dir err, Event.readDir client dir [] err ∈ (main env).trace) :
    (main env).outcome = .returned ∧ ∀ e ∈ (main env).trace, e.step = none := by
  rcases main_cases env with ⟨-, -, -, e, he, hs, hf⟩ |
    ⟨conn, client1, wd, files, tcpconn, session, fs, cfg, addr, d, addr2, mnt, line, closes,
      ht, hc, hout⟩
  · rw [hsetup e he hs] at hf
    cases hf
  · obtain ⟨client, dir, err, hD⟩ := hempty
    obtain ⟨-, -, hfiles, -⟩ := readDir_in_run env _ closes conn client1 wd files tcpconn
      session fs cfg addr d addr2 mnt line ht hc client dir [] err hD
    subst hfiles
    refine ⟨hout.2 rfl, ?_⟩
    intro e he
    cases hs : e.step with
    | none => rfl
    | some q =>
      have := step_in_run env _ closes conn client1 wd [] tcpconn session fs cfg addr d addr2
        mnt line ht hc e he q.1 q.2 hs
      simp [transferLoop_nil] at this

theorem empty_listing_completes_witness :
    (∀ e ∈ (main (okEnv [] [] "")).trace, e.isSetup = true → e.failed = false) ∧
      (∃ client dir err, Event.readDir client dir [] err ∈ (main (okEnv [] [] "")).trace) ∧
      (main (okEnv [] [] "")).outcome = .returned ∧
      ∀ e ∈ (main (okEnv [] [] "")).trace, e.step = none :=
  ⟨by decide, ⟨⟨2⟩, "/home", none, by decide⟩,
    empty_listing_completes (okEnv [] [] "") (by decide) ⟨⟨2⟩, "/home", none, by decide⟩⟩

/-- C9. In a run in which no call fails, `main` returns normally; the listing is read by
exactly one `ReadDir` call, issued before every call of the loop; after it, the open,
create, copy and remove calls are exactly the four calls, in that order, for each entry of
that listing that is not a directory, in listing order, so that each of the four calls
occurs exactly once for each such entry and never for another position; and the names
removed are the names of those entries, in listing order. -/
theorem single_snapshot_iteration (env : Env)
    (h : ∀ e ∈ (main env).trace, e.failed = false) :
    (main env).outcome = .returned ∧
      ∃ pre client dir D post,
        (main env).trace = pre ++ Event.readDir client dir D none :: post ∧
        (∀ e ∈ pre, e.isReadDir = false ∧ e.step = none) ∧
        (∀ e ∈ post, e.isReadDir = false) ∧
        post.filterMap Event.step = (transferable 0 D).flatMap (fun q => fourSteps q.1) ∧
        (∀ op i, (post.filterMap Event.step).count (op, i) =
          if (D[i]?).map FileInfo.isDir = some false then 1 else 0) ∧
        post.filterMap Event.removedName =
          (D.filter (fun f => !f.isDir)).map FileInfo.name := by
  rcases main_cases env with ⟨-, -, -, e, he, -, hf⟩ |
    ⟨conn, client1, wd, files, tcpconn, session, fs, cfg, addr, d, addr2, mnt, line, closes,
      ht, hc, hout⟩
  · rw [h e he] at hf
    cases hf
  · have hok : (transferLoop env client1 wd fs 0 files).result = .ok () := by
      apply loop_returns
      intro e he
      apply h
      rw [ht]
      simp [he]
    obtain ⟨h1, h2⟩ := loop_complete env client1 wd fs files 0 hok
    obtain ⟨c1, c2⟩ := filterMap_step_closes closes hc
    refine ⟨hout.2 hok, [.sshDial "tcp" addr cfg none, .sftpNewClient conn none,
      .getwd client1 none, .println line], client1, wd, files,
      [.netDial "tcp" addr2 none, .smbDial d tcpconn none, .mount session mnt none]
        ++ ((transferLoop env client1 wd fs 0 files).trace ++ closes), ?_, ?_, ?_, ?_, ?_, ?_⟩
    · rw [ht]; rfl
    · intro e he
      simp only [List.mem_cons, List.mem_nil_iff, or_false] at he
      rcases he with rfl | rfl | rfl | rfl <;> simp [Event.isReadDir, Event.step]
    · intro e he
      simp only [List.cons_append, List.nil_append, List.mem_cons, List.mem_append] at he
      rcases he with rfl | rfl | rfl | he | he
      · rfl
      · rfl
      · rfl
      · obtain ⟨j, f, -, -, hI⟩ := loop_events env client1 wd fs files 0 e he
        exact (issuedFor_step env client1 wd fs (0 + j) f e hI).2.2.1
      · exact (step_run e (hc e he)).2.2.2.1
    · simp [List.filterMap_append, List.filterMap_cons, Event.step, h1, c1]
    · intro op i
      have hpost : ([Event.netDial "tcp" addr2 none, .smbDial d tcpconn none,
          .mount session mnt none]
          ++ ((transferLoop env client1 wd fs 0 files).trace ++ closes)).filterMap Event.step =
          (transferable 0 files).flatMap (fun q => fourSteps q.1) := by
        simp [List.filterMap_append, List.filterMap_cons, Event.step, h1, c1]
      rw [hpost, count_transferable op i files 0]
      simp
    · simp [List.filterMap_append, List.filterMap_cons, Event.removedName, h2, c2]

theorem single_snapshot_iteration_witness :
    (∀ e ∈ (main (okEnv [⟨"a", false⟩, ⟨"d", true⟩, ⟨"b", false⟩] [1] "")).trace,
        e.failed = false) ∧
      ((main (okEnv [⟨"a", false⟩, ⟨"d", true⟩, ⟨"b", false⟩] [1] "")).outcome = .returned ∧
        ∃ pre client dir D post,
          (main (okEnv [⟨"a", false⟩, ⟨"d", true⟩, ⟨"b", false⟩] [1] "")).trace =
            pre ++ Event.readDir client dir D none :: post ∧
          (∀ e ∈ pre, e.isReadDir = false ∧ e.step = none) ∧
          (∀ e ∈ post, e.isReadDir = false) ∧
          post.filterMap Event.step = (transferable 0 D).flatMap (fun q => fourSteps q.1) ∧
          (∀ op i, (post.filterMap Event.step).count (op, i) =
            if (D[i]?).map FileInfo.isDir = some false then 1 else 0) ∧
          post.filterMap Event.removedName =
            (D.filter (fun f => !f.isDir)).map FileInfo.name) :=
  ⟨by decide, single_snapshot_iteration _ (by decide)⟩

/-- At every point of a run up to a call of the loop no deferred call has run, so the
destination handles open at that point are all those created so far. -/
theorem no_close_before_loop_call (env : Env) (p s : List Event) (e : Event) (op : Op)
    (i : Nat) (hsplit : p ++ e :: s = (main env).trace) (he : e.step = some (op, i)) :
    (∀ d, Event.run d ∉ p) ∧ openDstHandles p = p.filterMap Event.createdAt := by
  have hnorun : ∀ d, Event.run d ∉ p := by
    rcases main_cases env with ⟨-, -, hsteps, -⟩ |
      ⟨conn, client1, wd, files, tcpconn, session, fs, cfg, addr, d, addr2, mnt, line, closes,
        ht, hc, -⟩
    · have hmem : e ∈ (main env).trace := by rw [← hsplit]; simp
      rw [hsteps e hmem] at he
      cases he
    · intro d1 hd1
      rw [ht, ← List.append_assoc] at hsplit
      rcases List.append_eq_append_iff.1 hsplit with ⟨a1, hA, -⟩ | ⟨c1, -, hC⟩
      · have hmem : Event.run d1 ∈
            [Event.sshDial "tcp" addr cfg none, .sftpNewClient conn none, .getwd client1 none,
              .println line, .readDir client1 wd files none, .netDial "tcp" addr2 none,
              .smbDial d tcpconn none, .mount session mnt none]
            ++ (transferLoop env client1 wd fs 0 files).trace := by
          rw [hA]; exact List.mem_append.2 (Or.inl hd1)
        simp only [List.cons_append, List.nil_append, List.mem_cons, List.mem_append] at hmem
        rcases hmem with h | h | h | h | h | h | h | h | h
        · simp at h
        · simp at h
        · simp at h
        · simp at h
        · simp at h
        · simp at h
        · simp at h
        · simp at h
        · obtain ⟨j, f, -, -, hI⟩ := loop_events env client1 wd fs files 0 _ h
          simp [IssuedFor] at hI
      · have hmem : e ∈ closes := by rw [hC]; simp
        rw [(step_run e (hc e hmem)).1] at he
        cases he
  refine ⟨hnorun, ?_⟩
  have := openDst_no_close p hnorun []
  simpa [openDstHandles] using this

/-- C8, on the code: with two files in the listing, the destination handle of the first is
still open when the destination handle of the second is created, so two destination
handles are open at once.  The statement `defer dstFile.Close()` in the loop body postpones
each Close to the return of `main`: the two Close calls are the first calls after the last
call of the loop, last created first, and only then is no destination handle open. -/
theorem destination_handles_overlap :
    openDstHandles ((main (okEnv [⟨"a", false⟩, ⟨"b", false⟩] [] "")).trace.take 14) =
        [0, 1] ∧
      (main (okEnv [⟨"a", false⟩, ⟨"b", false⟩] [] "")).trace.drop 12 =
        [.sftpOpen 1 "/home/b" ⟨"/home/b", []⟩ none, .create 1 "b" ⟨"b", 1⟩ none,
          .writeTo 1 ⟨"/home/b", []⟩ ⟨"b", 1⟩ [] none, .remove 1 "b" none,
          .run (.dstClose 1 ⟨"b", 1⟩), .run (.dstClose 0 ⟨"a", 0⟩), .run (.logoff ⟨4⟩),
          .run (.connClose ⟨3⟩), .run (.sftpClose ⟨2⟩), .run (.sshClose ⟨1⟩)] ∧
      openDstHandles (main (okEnv [⟨"a", false⟩, ⟨"b", false⟩] [] "")).trace = [] ∧
      ¬ ∀ p s, p ++ s = (main (okEnv [⟨"a", false⟩, ⟨"b", false⟩] [] "")).trace →
        (openDstHandles p).length ≤ 1 := by
  refine ⟨by decide, by decide, by decide, ?_⟩
  intro h
  have h2 := h ((main (okEnv [⟨"a", false⟩, ⟨"b", false⟩] [] "")).trace.take 14)
    ((main (okEnv [⟨"a", false⟩, ⟨"b", false⟩] [] "")).trace.drop 14)
    (List.take_append_drop _ _)
  revert h2
  decide

/-- C1, on the code: the copy of the only file stops after one byte of three and returns an
error; the result of `WriteTo` is not looked at, the remove call for the file is issued all
the same and the run returns normally. -/
theorem remove_issued_after_failed_copy :
    Event.writeTo 0 ⟨"/home/a", [1, 2, 3]⟩ ⟨"a", 0⟩ [1] (some "short write") ∈
        (main (shortWriteEnv [⟨"a", false⟩] [1, 2, 3] "")).trace ∧
      Event.remove 0 "a" none ∈ (main (shortWriteEnv [⟨"a", false⟩] [1, 2, 3] "")).trace ∧
      (main (shortWriteEnv [⟨"a", false⟩] [1, 2, 3] "")).outcome = .returned := by
  decide

/-- C3, on the code: the copy of the first of two files fails; the run does not abort, the
second file is opened, created, copied and removed, and the run returns normally. -/
theorem run_continues_after_failed_copy :
    Event.writeTo 0 ⟨"/home/a", [1, 2, 3]⟩ ⟨"a", 0⟩ [1] (some "short write") ∈
        (main (shortWriteEnv [⟨"a", false⟩, ⟨"b", false⟩] [1, 2, 3] "")).trace ∧
      (main (shortWriteEnv [⟨"a", false⟩, ⟨"b", false⟩] [1, 2, 3] "")).trace.filterMap
          Event.step = fourSteps 0 ++ fourSteps 1 ∧
      (main (shortWriteEnv [⟨"a", false⟩, ⟨"b", false⟩] [1, 2, 3] "")).outcome = .returned := by
  decide

/-- C10, on the code: when `Getwd` succeeds and `ReadDir` fails, the message of the fatal
branch is built from `err`, the nil error of `Getwd`, not from `files_err`: `err.Error()`
dereferences nil and the run panics instead of logging the diagnostic. -/
theorem readDir_failure_dereferences_nil :
    main readDirFailsEnv =
      ⟨[.sshDial "tcp" "SFTP:22" ⟨"SFTP_USERNAME", ["SFTP_PASSWORD"], true⟩ none,
        .sftpNewClient ⟨1⟩ none, .getwd ⟨2⟩ none, .println "SFTP folder: /home\n",
        .readDir ⟨2⟩ "/home" [] (some "permission denied"),
        .run (.sftpClose ⟨2⟩), .run (.sshClose ⟨1⟩)],
        .panicked "runtime error: invalid memory address or nil pointer dereference"⟩ := by
  decide

end SftpSmb
